import Mathlib

/-!
Verification of the per-tab EQ audio engine of the `eq-extension`
browser extension.

The development shallowly embeds the engine's two processes:

* the control plane (`background.js`): the `eqSessions` registry, the
  `startingTabs` re-entrancy lock, `startEqForTab`, `rehydrateEqSessions`
  and the `GET_EQ_STATUS` handler;
* the audio host (`offscreen.js`): the `audioGraphs` map, the
  `createEqFilters` band factory and the `STOP_EQ`, `SET_VOLUME`,
  `UPDATE_EQ_NODES`, `GET_ACTIVE_TABS` and `GET_STREAM_IDS` handlers;
* the pure filter math of `Popup.jsx` (`baseQToQ` / `qToBaseQ`) and the
  RBJ biquad response evaluation of `generateBellCurve`.

JavaScript numbers are modelled as rationals (`ℚ`) for the exact
parameter bookkeeping, and as reals (`ℝ`) for the transcendental filter
response math.  JS `Map`s are modelled as association lists with
insert-or-replace semantics; exceptions of fallible environment calls
are modelled by explicit fault oracles.
-/

namespace EqExt

/-! ## Association-list model of JS `Map` -/

/-- `Map.get`: first value stored under key `k`, if any. -/
def lookupKey {α : Type} (m : List (Nat × α)) (k : Nat) : Option α :=
  match m with
  | [] => none
  | (k', v) :: rest => if k' = k then some v else lookupKey rest k

/-- `Map.set`: replace the value under `k` in place, or append a fresh
entry when the key is absent (JS `Map` insertion-order semantics). -/
def setKey {α : Type} (m : List (Nat × α)) (k : Nat) (v : α) : List (Nat × α) :=
  match m with
  | [] => [(k, v)]
  | (k', v') :: rest =>
      if k' = k then (k, v) :: rest else (k', v') :: setKey rest k v

/-- `Map.delete`: drop every entry stored under `k`. -/
def delKey {α : Type} (m : List (Nat × α)) (k : Nat) : List (Nat × α) :=
  m.filter (fun p => p.1 ≠ k)

/-- `Map.has`. -/
def hasKey {α : Type} (m : List (Nat × α)) (k : Nat) : Bool :=
  (lookupKey m k).isSome

/-- `Set.add`: insert an element if absent. -/
def insertSet (s : List Nat) (k : Nat) : List Nat :=
  if s.contains k then s else k :: s

/-- `Set.delete`: remove an element. -/
def removeSet (s : List Nat) (k : Nat) : List Nat :=
  s.filter (fun x => x ≠ k)

/-! ## EQ parameter model (`Popup.jsx`) -/

/-- `Popup.jsx` `baseQToQ`:
`Q = isShelf ? baseQ : baseQ * (1.5 - Math.abs(gaindB) / 30)`. -/
def baseQToQ (index : Nat) (baseQ gaindB : ℚ) : ℚ :=
  if index = 2 ∨ index = 12 then
    baseQ
  else
    baseQ * (3/2 - |gaindB| / 30)

/-- `Popup.jsx` `qToBaseQ`:
`baseQ = isShelf ? q : (divisor ≠ 0 ? q / divisor : 0.3)` where
`divisor = 1.5 - Math.abs(gaindB) / 30`. -/
def qToBaseQ (index : Nat) (q gaindB : ℚ) : ℚ :=
  if index = 2 ∨ index = 12 then
    q
  else
    let divisor := 3/2 - |gaindB| / 30
    if divisor ≠ 0 then q / divisor else 3/10

/-- The effective-Q computation inlined in `generateBellCurve`
(`Controls` helper module): `Q = isShelf ? baseQ : baseQ * (1.5 -
Math.abs(gainDb) / 30)` with `isShelf = index === 2 || index === 12`. -/
def bellCurveQ (index : Nat) (baseQ gainDb : ℚ) : ℚ :=
  if index = 2 ∨ index = 12 then baseQ else baseQ * (3/2 - |gainDb| / 30)

/-! ## Audio-host band factory (`offscreen.js`) -/

/-- `BiquadFilterNode.type` values used by the engine.  `lowpass` is the
Web Audio construction default, overwritten by `createEqFilters` for
every band index the source handles. -/
inductive FilterType where
  | lowpass
  | peaking
  | lowshelf
  | highshelf
deriving DecidableEq, Repr

/-- One `BiquadFilterNode` as the engine configures it. -/
structure Band where
  frequency : ℚ
  gain : ℚ
  q : ℚ
  ftype : FilterType
deriving DecidableEq, Repr

/-- `offscreen.js` `DEFAULT_PEAKING_Q = 0.3`. -/
def DEFAULT_PEAKING_Q : ℚ := 3/10

/-- `offscreen.js` `DEFAULT_SHELF_Q = 0.75`. -/
def DEFAULT_SHELF_Q : ℚ := 3/4

/-- `offscreen.js` `FREQUENCIES`. -/
def FREQUENCIES : List ℚ :=
  [5, 10, 20, 40, 80, 160, 320, 640, 1280, 2560, 5120, 10240, 20480]

/-- Body of the `createEqFilters` loop for index `i`: a fresh biquad
(Web Audio defaults `type = lowpass`, `Q = 1`) whose frequency is set to
`FREQUENCIES[i]`, gain to `0`, and whose type/Q are then assigned by the
index-dispatch chain of the source. -/
def mkFilter (i : Nat) : Band :=
  let biquad : Band :=
    { frequency := FREQUENCIES.getD i 0, gain := 0, q := 1, ftype := .lowpass }
  if i = 0 ∨ i = 1 then
    { biquad with ftype := .peaking, q := DEFAULT_PEAKING_Q }
  else if i = 2 then
    { biquad with ftype := .lowshelf, q := DEFAULT_SHELF_Q }
  else if i = 12 then
    { biquad with ftype := .highshelf, q := DEFAULT_SHELF_Q }
  else if 3 ≤ i ∧ i ≤ 11 then
    { biquad with ftype := .peaking, q := DEFAULT_PEAKING_Q }
  else
    biquad

/-- `offscreen.js` `createEqFilters`: one biquad per entry of
`FREQUENCIES`. -/
def createEqFilters : List Band :=
  (List.range FREQUENCIES.length).map mkFilter

/-! ## Session registry (`background.js`) -/

/-- Status of a control-plane session (`"starting"` / `"active"`). -/
inductive SessionStatus where
  | starting
  | active
deriving DecidableEq, Repr

/-- One `eqSessions` entry: `{ streamId, status }`.  `streamId` is
`none` when the JS value is `null`. -/
structure Session where
  streamId : Option String
  status : SessionStatus
deriving DecidableEq, Repr

/-- The background service worker's in-memory state: the `eqSessions`
registry and the `startingTabs` re-entrancy lock set. -/
structure BgState where
  eqSessions : List (Nat × Session)
  startingTabs : List Nat
deriving DecidableEq, Repr

/-! ## Audio graphs (`offscreen.js`) -/

/-- One `audioGraphs` entry.  The boolean flags record the observable
effects of the `STOP_EQ` teardown steps on the underlying Web Audio /
media-stream objects (node disconnection, track stopping, context
closure). -/
structure Graph where
  streamId : String
  gainValue : ℚ
  eqFilters : List Band
  sourceDisconnected : Bool := false
  gainDisconnected : Bool := false
  tracksStopped : Bool := false
  contextClosed : Bool := false
deriving DecidableEq, Repr

/-- The audio host's `audioGraphs` map. -/
abbrev GraphMap := List (Nat × Graph)

/-- A structured handler response: `{ ok: true }` or
`{ ok: false, error }`. -/
inductive Resp where
  | okResp
  | errResp (msg : String)
deriving DecidableEq, Repr

/-- Fault oracle for the `STOP_EQ` teardown: which of the three
fallible steps (node disconnection, `track.stop()`, context `close()`)
raises an exception. -/
structure TeardownFaults where
  disconnectThrows : Bool := false
  stopTracksThrows : Bool := false
  closeThrows : Bool := false
deriving DecidableEq, Repr

/-- `offscreen.js` `STOP_EQ` handler.  The whole teardown sequence sits
inside a single `try`: a throwing step jumps to the `catch`, which only
sends `{ok:false, error}` — the remaining steps (including
`audioGraphs.delete(tabId)`) are skipped.  The third component is the
final state of the graph object itself (mutations persist even when the
entry stays in, or leaves, the map). -/
def stopEq (f : TeardownFaults) (graphs : GraphMap) (tabId : Nat) :
    GraphMap × Resp × Option Graph :=
  match lookupKey graphs tabId with
  | none => (graphs, .okResp, none)
  | some g =>
      if f.disconnectThrows then
        (graphs, .errResp "STOP_EQ step threw", some g)
      else
        let g := { g with sourceDisconnected := true, gainDisconnected := true }
        if f.stopTracksThrows then
          (setKey graphs tabId g, .errResp "STOP_EQ step threw", some g)
        else
          let g := { g with tracksStopped := true }
          if f.closeThrows then
            (setKey graphs tabId g, .errResp "STOP_EQ step threw", some g)
          else
            let g := { g with contextClosed := true }
            (delKey graphs tabId, .okResp, some g)

/-- `offscreen.js` `SET_VOLUME` handler: sets the master gain when a
graph (with a gain node) exists, silently does nothing otherwise, and
responds `{ok:true}` in both cases. -/
def setVolume (graphs : GraphMap) (tabId : Nat) (value : ℚ) : GraphMap × Resp :=
  match lookupKey graphs tabId with
  | some g => (setKey graphs tabId { g with gainValue := value }, .okResp)
  | none => (graphs, .okResp)

/-- An `UPDATE_EQ_NODES` message: three optional partial maps keyed by
band index (`none` models an absent/`undefined` field). -/
structure UpdateMsg where
  nodeGainValues : Option (List (Nat × ℚ)) := none
  nodeFrequencyValues : Option (List (Nat × ℚ)) := none
  nodeQValues : Option (List (Nat × ℚ)) := none

/-- `m && i in m` followed by `m[i]`: the value supplied for index `i`,
if the map is present and has the key. -/
def mapEntry (m : Option (List (Nat × ℚ))) (i : Nat) : Option ℚ :=
  match m with
  | none => none
  | some l => lookupKey l i

/-- Body of the `UPDATE_EQ_NODES` loop for band `i`: each of frequency,
Q and gain is overwritten exactly when the corresponding map supplies
index `i`. -/
def applyBandUpdate (msg : UpdateMsg) (i : Nat) (b : Band) : Band :=
  let b := match mapEntry msg.nodeFrequencyValues i with
    | some v => { b with frequency := v }
    | none => b
  let b := match mapEntry msg.nodeQValues i with
    | some v => { b with q := v }
    | none => b
  match mapEntry msg.nodeGainValues i with
  | some v => { b with gain := v }
  | none => b

/-- The `for (let i = 0; i < FREQUENCIES.length; i++)` loop of the
`UPDATE_EQ_NODES` handler, walking the filter array with its running
index: each band whose index is below `FREQUENCIES.length` receives the
sparse update. -/
def updateFiltersFrom (msg : UpdateMsg) (i : Nat) : List Band → List Band
  | [] => []
  | b :: rest =>
      (if i < FREQUENCIES.length then applyBandUpdate msg i b else b) ::
        updateFiltersFrom msg (i + 1) rest

/-- `offscreen.js` `UPDATE_EQ_NODES` handler: errors when no graph
exists for the tab, otherwise applies the sparse per-band merge to the
indices `0 ≤ i < FREQUENCIES.length`. -/
def updateEqNodes (msg : UpdateMsg) (graphs : GraphMap) (tabId : Nat) :
    GraphMap × Resp :=
  match lookupKey graphs tabId with
  | none => (graphs, .errResp "No audio graph for tab")
  | some g =>
      let filters := updateFiltersFrom msg 0 g.eqFilters
      (setKey graphs tabId { g with eqFilters := filters }, .okResp)

/-- `offscreen.js` `GET_ACTIVE_TABS` handler: the keys of
`audioGraphs`. -/
def getActiveTabs (graphs : GraphMap) : List Nat :=
  graphs.map Prod.fst

/-- `offscreen.js` `GET_STREAM_IDS` handler: `tabId → streamId` for
every active graph. -/
def getStreamIds (graphs : GraphMap) : List (Nat × String) :=
  graphs.map (fun p => (p.1, p.2.streamId))

/-! ## Control-plane handlers (`background.js`) -/

/-- `background.js` `GET_EQ_STATUS` handler:
`active = eqSessions.has(tabId)`. -/
def getEqStatus (st : BgState) (tabId : Nat) : Bool :=
  hasKey st.eqSessions tabId

/-- `streamIds[tabId] || null`: a missing or falsy (empty-string)
stream id collapses to `null`. -/
def jsOrNull (s : Option String) : Option String :=
  match s with
  | some v => if v = "" then none else some v
  | none => none

/-- `background.js` `rehydrateEqSessions`, with the audio host's two
query handlers inlined as its environment: queries `GET_ACTIVE_TABS`
and `GET_STREAM_IDS`, then registers every returned tab id as an
`active` session carrying the reported stream id. -/
def rehydrateEqSessions (graphs : GraphMap) (st : BgState) : BgState :=
  let tabIds := getActiveTabs graphs
  let streamIds := getStreamIds graphs
  let entryFor := fun (tabId : Nat) =>
    Session.mk (jsOrNull (lookupKey streamIds tabId)) .active
  let sessions := tabIds.foldl (fun m tabId => setKey m tabId (entryFor tabId)) st.eqSessions
  { st with eqSessions := sessions }

/-- Environment oracle for one `startEqForTab` call: whether
`ensureOffscreen` throws, what `chrome.tabCapture.getMediaStreamId`
does (`none` = throws, `some s` = grants stream id `s`), and what the
awaited `INIT_AUDIO` round-trip does (`none` = the send rejects,
`some b` = the offscreen document answers with `ok = b`). -/
structure StartEnv where
  ensureOffscreenThrows : Bool := false
  captureResult : Option String := none
  initAudioResult : Option Bool := none

/-- The object returned by `startEqForTab`. -/
structure StartResp where
  ok : Bool
  alreadyStarting : Bool := false
  alreadyActive : Bool := false
  error : Option String := none
deriving DecidableEq, Repr

/-- `background.js` `startEqForTab`.  Each exception site of the `try`
block falls through to the `catch` (which deletes the session entry)
and the `finally` (which releases the per-tab lock); the early
`return`s inside the `try` run only the `finally`.  A `tabId` of `0`
models the JS-falsy `!tabId` guard. -/
def startEqForTab (env : StartEnv) (st : BgState) (tabId : Nat) :
    BgState × StartResp :=
  if st.startingTabs.contains tabId then
    (st, { ok := true, alreadyStarting := true })
  else
    let st := { st with startingTabs := insertSet st.startingTabs tabId }
    if env.ensureOffscreenThrows then
      ({ st with eqSessions := delKey st.eqSessions tabId,
                 startingTabs := removeSet st.startingTabs tabId },
       { ok := false, error := some "ensureOffscreen threw" })
    else if tabId = 0 then
      ({ st with startingTabs := removeSet st.startingTabs tabId },
       { ok := false, error := some "No tab ID provided" })
    else if hasKey st.eqSessions tabId then
      ({ st with startingTabs := removeSet st.startingTabs tabId },
       { ok := true, alreadyActive := true })
    else
      match env.captureResult with
      | none =>
          ({ st with eqSessions := delKey st.eqSessions tabId,
                     startingTabs := removeSet st.startingTabs tabId },
           { ok := false, error := some "getMediaStreamId threw" })
      | some streamId =>
          let entry : Session := { streamId := some streamId, status := .starting }
          let st := { st with eqSessions := setKey st.eqSessions tabId entry }
          match env.initAudioResult with
          | none =>
              ({ st with eqSessions := delKey st.eqSessions tabId,
                         startingTabs := removeSet st.startingTabs tabId },
               { ok := false, error := some "sendToOffscreen rejected" })
          | some resOk =>
              let activeEntry : Session := { streamId := some streamId, status := .active }
              let st := if resOk then
                  { st with eqSessions := setKey st.eqSessions tabId activeEntry }
                else st
              ({ st with startingTabs := removeSet st.startingTabs tabId },
               { ok := true })

/-! ## RBJ filter math (`generateBellCurve`) -/

/-- The five biquad transfer-function coefficients (plus `a0`). -/
structure Coeffs where
  b0 : ℝ
  b1 : ℝ
  b2 : ℝ
  a0 : ℝ
  a1 : ℝ
  a2 : ℝ

/-- The peaking-EQ branch of `generateBellCurve`: RBJ Audio EQ Cookbook
coefficients from `A = 10^(gainDb/40)`, `w0 = 2π·f/fs`,
`alpha = sin w0 / (2Q)`. -/
noncomputable def peakingCoeffs (sampleRate centerFreq gainDb Q : ℝ) : Coeffs :=
  let A := (10 : ℝ) ^ (gainDb / 40)
  let w0 := 2 * Real.pi * centerFreq / sampleRate
  let sinW0 := Real.sin w0
  let cosW0 := Real.cos w0
  let alpha := sinW0 / (2 * Q)
  { b0 := 1 + alpha * A
    b1 := -2 * cosW0
    b2 := 1 - alpha * A
    a0 := 1 + alpha / A
    a1 := -2 * cosW0
    a2 := 1 - alpha / A }

/-- The response-evaluation loop body of `generateBellCurve` at one
frequency `freq`: substitutes `z = e^{jw}`, takes the magnitude of the
complex quotient, floors it at `1e-10` and converts to dB. -/
noncomputable def magnitudeDbAt (c : Coeffs) (sampleRate freq : ℝ) : ℝ :=
  let w := 2 * Real.pi * freq / sampleRate
  let sinW := Real.sin w
  let cosW := Real.cos w
  let sin2W := Real.sin (2 * w)
  let cos2W := Real.cos (2 * w)
  let numReal := c.b0 + c.b1 * cosW + c.b2 * cos2W
  let numImag := c.b1 * sinW + c.b2 * sin2W
  let denReal := c.a0 + c.a1 * cosW + c.a2 * cos2W
  let denImag := c.a1 * sinW + c.a2 * sin2W
  let numMag := Real.sqrt (numReal * numReal + numImag * numImag)
  let denMag := Real.sqrt (denReal * denReal + denImag * denImag)
  let magnitude := numMag / denMag
  20 * Real.logb 10 (max magnitude (1e-10))

/-! ## Map lemmas -/

theorem lookupKey_setKey_self {α : Type} (m : List (Nat × α)) (k : Nat) (v : α) :
    lookupKey (setKey m k v) k = some v := by
  induction m with
  | nil => simp [setKey, lookupKey]
  | cons p rest ih =>
      obtain ⟨k', v'⟩ := p
      by_cases h : k' = k <;> simp [setKey, lookupKey, h, ih]

theorem lookupKey_setKey_ne {α : Type} (m : List (Nat × α)) (k k' : Nat) (v : α)
    (h : k' ≠ k) : lookupKey (setKey m k' v) k = lookupKey m k := by
  induction m with
  | nil => simp [setKey, lookupKey, h]
  | cons p rest ih =>
      obtain ⟨k₀, v₀⟩ := p
      by_cases h0 : k₀ = k'
      · subst h0
        simp [setKey, lookupKey, h]
      · simp only [setKey, if_neg h0, lookupKey]
        by_cases h1 : k₀ = k <;> simp [h1, ih]

theorem lookupKey_delKey_self {α : Type} (m : List (Nat × α)) (k : Nat) :
    lookupKey (delKey m k) k = none := by
  induction m with
  | nil => simp [delKey, lookupKey]
  | cons p rest ih =>
      obtain ⟨k', v'⟩ := p
      by_cases h : k' = k <;> simp_all [delKey, lookupKey, h]

theorem lookupKey_mem {α : Type} (m : List (Nat × α)) (k : Nat) (v : α)
    (h : lookupKey m k = some v) : (k, v) ∈ m := by
  induction m with
  | nil => simp [lookupKey] at h
  | cons p rest ih =>
      obtain ⟨k', v'⟩ := p
      by_cases hk : k' = k
      · subst hk
        simp [lookupKey] at h
        simp [h]
      · simp only [lookupKey, if_neg hk] at h
        exact List.mem_cons_of_mem _ (ih h)

theorem mem_keys_iff_lookupKey {α : Type} (m : List (Nat × α)) (k : Nat) :
    k ∈ m.map Prod.fst ↔ lookupKey m k ≠ none := by
  induction m with
  | nil => simp [lookupKey]
  | cons p rest ih =>
      obtain ⟨k', v'⟩ := p
      by_cases h : k' = k
      · subst h
        simp [lookupKey]
      · have h2 : k ≠ k' := fun hkk => h hkk.symm
        simp [lookupKey, h, h2, ih]

theorem contains_removeSet (s : List Nat) (k : Nat) :
    (removeSet s k).contains k = false := by
  induction s with
  | nil => simp [removeSet]
  | cons x rest ih =>
      by_cases h : x = k
      · simp_all [removeSet]
      · have h2 : ¬k = x := fun hkk => h hkk.symm
        simp_all [removeSet]

theorem not_mem_removeSet (s : List Nat) (k : Nat) : k ∉ removeSet s k := by
  simp [removeSet]

/-- Index lookup through the `UPDATE_EQ_NODES` loop: position `j` of
the result is position `j` of the input, updated iff the running index
`i + j` is in range. -/
theorem updateFiltersFrom_getElem (msg : UpdateMsg) (l : List Band) (i j : Nat) :
    (updateFiltersFrom msg i l)[j]? =
      (l[j]?).map (fun b =>
        if i + j < FREQUENCIES.length then applyBandUpdate msg (i + j) b else b) := by
  induction l generalizing i j with
  | nil => simp [updateFiltersFrom]
  | cons b rest ih =>
      cases j with
      | zero => simp [updateFiltersFrom]
      | succ j' =>
          simp only [updateFiltersFrom, List.getElem?_cons_succ, ih]
          have : i + 1 + j' = i + (j' + 1) := by omega
          rw [this]

/-! ## Claims C4, C5, C8 -/

/-- **C4.** For every band index `i` and every `baseQ` and
`gainDb ∈ [-30, 30]`, the effective Q fed to the filter equals
`baseQ × (1.5 − |gainDb|/30)` when `i ∉ {2, 12}` and equals `baseQ`
unchanged when `i ∈ {2, 12}`; the popup conversion and the
bell-curve renderer compute the same value. -/
theorem effectiveQ_coupling (i : Nat) (baseQ gainDb : ℚ)
    (hlo : -30 ≤ gainDb) (hhi : gainDb ≤ 30) :
    (¬(i = 2 ∨ i = 12) → baseQToQ i baseQ gainDb = baseQ * (3/2 - |gainDb| / 30)) ∧
    ((i = 2 ∨ i = 12) → baseQToQ i baseQ gainDb = baseQ) ∧
    bellCurveQ i baseQ gainDb = baseQToQ i baseQ gainDb := by
  refine ⟨fun h => ?_, fun h => ?_, ?_⟩
  · simp [baseQToQ, h]
  · simp [baseQToQ, h]
  · simp [baseQToQ, bellCurveQ]

/-- Witness for C4 at `i = 5`, `baseQ = 0.3`, `gainDb = -12`. -/
theorem effectiveQ_coupling_witness :
    (¬((5:Nat) = 2 ∨ (5:Nat) = 12) →
      baseQToQ 5 (3/10) (-12) = (3/10) * (3/2 - |(-12:ℚ)| / 30)) ∧
    (((5:Nat) = 2 ∨ (5:Nat) = 12) → baseQToQ 5 (3/10) (-12) = 3/10) ∧
    bellCurveQ 5 (3/10) (-12) = baseQToQ 5 (3/10) (-12) :=
  effectiveQ_coupling 5 (3/10) (-12) (by norm_num) (by norm_num)

/-- **C5.** Converting `baseQ` to effective Q and back recovers `baseQ`
exactly whenever the coupling factor `1.5 − |gainDb|/30` is non-zero;
when the factor is zero (`|gainDb| = 45`) the inverse mapping of a
non-shelf band falls back to the default `baseQ = 0.3` instead of a
non-finite result. -/
theorem q_roundtrip (i : Nat) (baseQ gainDb q : ℚ)
    (hfactor : 3/2 - |gainDb| / 30 ≠ 0) :
    qToBaseQ i (baseQToQ i baseQ gainDb) gainDb = baseQ ∧
    (∀ g : ℚ, |g| = 45 → ¬(i = 2 ∨ i = 12) → qToBaseQ i q g = 3/10) := by
  constructor
  · by_cases h : i = 2 ∨ i = 12
    · simp [baseQToQ, qToBaseQ, h]
    · simp only [baseQToQ, qToBaseQ, h, if_false, if_neg]
      rw [if_pos hfactor]
      rw [mul_div_assoc, div_self hfactor, mul_one]
  · intro g hg h
    have hz : 3/2 - |g| / 30 = 0 := by rw [hg]; norm_num
    simp [qToBaseQ, h, hz]

/-- Witness for C5 at `i = 7`, `baseQ = 1.1`, `gainDb = 9`, `q = 2`. -/
theorem q_roundtrip_witness :
    (qToBaseQ 7 (baseQToQ 7 (11/10) 9) 9 = 11/10 ∧
      (∀ g : ℚ, |g| = 45 → ¬((7:Nat) = 2 ∨ (7:Nat) = 12) → qToBaseQ 7 2 g = 3/10)) :=
  q_roundtrip 7 (11/10) 9 2 (by norm_num)

/-- **C8.** `createEqFilters` builds exactly 13 bands at the fixed
ascending frequencies `[5, …, 20480]` Hz; indices 0–1 and 3–11 are
peaking filters, index 2 is a low-shelf and index 12 a high-shelf;
every gain starts at 0 dB and Q starts at 0.75 for the shelves and 0.3
for the peaking bands. -/
theorem createEqFilters_defaults :
    createEqFilters.length = 13 ∧
    createEqFilters.map Band.frequency =
      [5, 10, 20, 40, 80, 160, 320, 640, 1280, 2560, 5120, 10240, 20480] ∧
    List.Chain' (· < ·) (createEqFilters.map Band.frequency) ∧
    createEqFilters.map Band.ftype =
      [.peaking, .peaking, .lowshelf, .peaking, .peaking, .peaking, .peaking,
       .peaking, .peaking, .peaking, .peaking, .peaking, .highshelf] ∧
    createEqFilters.map Band.gain = List.replicate 13 0 ∧
    createEqFilters.map Band.q =
      [3/10, 3/10, 3/4, 3/10, 3/10, 3/10, 3/10, 3/10, 3/10, 3/10, 3/10, 3/10, 3/4] := by
  refine ⟨rfl, by norm_num [createEqFilters, mkFilter, FREQUENCIES, List.range_succ], ?_, ?_, ?_, ?_⟩
  · norm_num [createEqFilters, mkFilter, FREQUENCIES, List.range_succ]
  · norm_num [createEqFilters, mkFilter, FREQUENCIES, List.range_succ,
      DEFAULT_PEAKING_Q, DEFAULT_SHELF_Q]
  · norm_num [createEqFilters, mkFilter, FREQUENCIES, List.range_succ,
      List.replicate]
  · norm_num [createEqFilters, mkFilter, FREQUENCIES, List.range_succ,
      DEFAULT_PEAKING_Q, DEFAULT_SHELF_Q]

/-! ## Claim C1 -/

/-- Counterexample to C1 as stated: starting tab `1` from a clean state
with a granted capture but an Audio Host `Create` (`INIT_AUDIO`) that
answers `{ok:false}` leaves an orphaned `starting` registry row — and
the call even reports `ok:true`. -/
theorem startEq_structured_failure_orphan :
    lookupKey (startEqForTab { captureResult := some "s", initAudioResult := some false }
        { eqSessions := [], startingTabs := [] } 1).1.eqSessions 1 =
      some { streamId := some "s", status := .starting } ∧
    (startEqForTab { captureResult := some "s", initAudioResult := some false }
        { eqSessions := [], startingTabs := [] } 1).2.ok = true := by
  exact ⟨rfl, rfl⟩

/-- **C1 (amended).** A `startEqForTab` call that throws (offscreen
creation, capture grant, or the `INIT_AUDIO` send rejecting) leaves no
registry entry for the tab; but an Audio Host `Create` that completes
with a structured `{ok:false}` leaves the `starting` row in the
registry (and the call reports `ok:true`).  The per-tab starting lock
is released in every case. -/
theorem startEq_cleanup (env : StartEnv) (st : BgState) (tabId : Nat)
    (hlock : st.startingTabs.contains tabId = false)
    (hid : tabId ≠ 0)
    (hfresh : hasKey st.eqSessions tabId = false) :
    ((env.ensureOffscreenThrows = true ∨ env.captureResult = none ∨
        env.initAudioResult = none) →
      lookupKey (startEqForTab env st tabId).1.eqSessions tabId = none ∧
      (startEqForTab env st tabId).2.ok = false) ∧
    (∀ s, env.ensureOffscreenThrows = false → env.captureResult = some s →
        env.initAudioResult = some false →
      lookupKey (startEqForTab env st tabId).1.eqSessions tabId =
        some { streamId := some s, status := .starting } ∧
      (startEqForTab env st tabId).2.ok = true) ∧
    (startEqForTab env st tabId).1.startingTabs.contains tabId = false := by
  obtain ⟨eo, cr, ir⟩ := env
  have hnm : tabId ∉ st.startingTabs := by simpa using hlock
  refine ⟨?_, ?_, ?_⟩
  · rintro (h | h | h)
    · simp only at h
      subst h
      exact ⟨by simp [startEqForTab, hnm, lookupKey_delKey_self],
             by simp [startEqForTab, hnm]⟩
    · simp only at h
      subst h
      cases eo
      · exact ⟨by simp [startEqForTab, hnm, hid, hfresh, lookupKey_delKey_self],
               by simp [startEqForTab, hnm, hid, hfresh]⟩
      · exact ⟨by simp [startEqForTab, hnm, lookupKey_delKey_self],
               by simp [startEqForTab, hnm]⟩
    · simp only at h
      subst h
      cases eo
      · cases hcr : cr with
        | none =>
            exact ⟨by simp [startEqForTab, hnm, hid, hfresh, lookupKey_delKey_self],
                   by simp [startEqForTab, hnm, hid, hfresh]⟩
        | some s =>
            exact ⟨by simp [startEqForTab, hnm, hid, hfresh, hcr, lookupKey_delKey_self],
                   by simp [startEqForTab, hnm, hid, hfresh, hcr]⟩
      · exact ⟨by simp [startEqForTab, hnm, lookupKey_delKey_self],
               by simp [startEqForTab, hnm]⟩
  · intro s heo hcr hir
    simp only at heo hcr hir
    subst heo; subst hcr; subst hir
    exact ⟨by simp [startEqForTab, hnm, hid, hfresh, lookupKey_setKey_self],
           by simp [startEqForTab, hnm, hid, hfresh]⟩
  · cases eo
    · cases hcr : cr with
      | none => simp [startEqForTab, hnm, hid, hfresh, not_mem_removeSet]
      | some s =>
          cases hir : ir with
          | none => simp [startEqForTab, hnm, hid, hfresh, hcr, not_mem_removeSet]
          | some b =>
              cases b <;>
                simp [startEqForTab, hnm, hid, hfresh, hcr, hir, not_mem_removeSet]
    · simp [startEqForTab, hnm, not_mem_removeSet]

/-- Witness for C1 amended, at a capture grant that throws for tab `1`
on a clean control plane. -/
theorem startEq_cleanup_witness :
    ((({ captureResult := none } : StartEnv).ensureOffscreenThrows = true ∨
        ({ captureResult := none } : StartEnv).captureResult = none ∨
        ({ captureResult := none } : StartEnv).initAudioResult = none) →
      lookupKey (startEqForTab { captureResult := none }
          { eqSessions := [], startingTabs := [] } 1).1.eqSessions 1 = none ∧
      (startEqForTab { captureResult := none }
          { eqSessions := [], startingTabs := [] } 1).2.ok = false) ∧
    (∀ s, ({ captureResult := none } : StartEnv).ensureOffscreenThrows = false →
        ({ captureResult := none } : StartEnv).captureResult = some s →
        ({ captureResult := none } : StartEnv).initAudioResult = some false →
      lookupKey (startEqForTab { captureResult := none }
          { eqSessions := [], startingTabs := [] } 1).1.eqSessions 1 =
        some { streamId := some s, status := .starting } ∧
      (startEqForTab { captureResult := none }
          { eqSessions := [], startingTabs := [] } 1).2.ok = true) ∧
    (startEqForTab { captureResult := none }
          { eqSessions := [], startingTabs := [] } 1).1.startingTabs.contains 1 = false :=
  startEq_cleanup { captureResult := none } { eqSessions := [], startingTabs := [] } 1
    rfl (by norm_num) rfl

/-! ## Claim C2 -/

/-- Counterexample to C2 as stated: with a graph present for tab `3`
and a `track.stop()` that throws, the `STOP_EQ` handler skips context
closure and map removal — the graph entry survives the call. -/
theorem stopEq_throw_keeps_entry :
    hasKey (stopEq { stopTracksThrows := true }
        [(3, { streamId := "h", gainValue := 1, eqFilters := [] })] 3).1 3 = true ∧
    (stopEq { stopTracksThrows := true }
        [(3, { streamId := "h", gainValue := 1, eqFilters := [] })] 3).2.2 =
      some { streamId := "h", gainValue := 1, eqFilters := [],
             sourceDisconnected := true, gainDisconnected := true,
             tracksStopped := false, contextClosed := false } := by
  exact ⟨rfl, rfl⟩

/-- **C2 (amended).** When no teardown step throws, `STOP_EQ` runs all
four steps (node disconnection, track stopping, context closure, map
removal) and answers `{ok:true}`; when a step throws, the handler
answers `{ok:false}`, the remaining steps are skipped and the graph
entry remains in the audio host's map. -/
theorem stopEq_best_effort (f : TeardownFaults) (graphs : GraphMap) (tabId : Nat)
    (g : Graph) (hg : lookupKey graphs tabId = some g) :
    (f.disconnectThrows = false → f.stopTracksThrows = false → f.closeThrows = false →
      stopEq f graphs tabId =
        (delKey graphs tabId, Resp.okResp,
         some { g with sourceDisconnected := true, gainDisconnected := true,
                       tracksStopped := true, contextClosed := true })) ∧
    ((f.disconnectThrows = true ∨ f.stopTracksThrows = true ∨ f.closeThrows = true) →
      (stopEq f graphs tabId).2.1 = Resp.errResp "STOP_EQ step threw" ∧
      hasKey (stopEq f graphs tabId).1 tabId = true) := by
  obtain ⟨d, t, c⟩ := f
  constructor
  · intro hd ht hc
    simp only at hd ht hc
    subst hd; subst ht; subst hc
    simp [stopEq, hg]
  · rintro (h | h | h) <;> simp only at h <;> subst h
    · constructor
      · simp [stopEq, hg]
      · simp [stopEq, hg, hasKey]
    · cases d
      · exact ⟨by simp [stopEq, hg], by simp [stopEq, hg, hasKey, lookupKey_setKey_self]⟩
      · exact ⟨by simp [stopEq, hg], by simp [stopEq, hg, hasKey]⟩
    · cases d
      · cases t
        · exact ⟨by simp [stopEq, hg], by simp [stopEq, hg, hasKey, lookupKey_setKey_self]⟩
        · exact ⟨by simp [stopEq, hg], by simp [stopEq, hg, hasKey, lookupKey_setKey_self]⟩
      · exact ⟨by simp [stopEq, hg], by simp [stopEq, hg, hasKey]⟩

/-- Witness for C2 amended, at a fault-free teardown of tab `2`. -/
theorem stopEq_best_effort_witness :
    ((({} : TeardownFaults).disconnectThrows = false →
      ({} : TeardownFaults).stopTracksThrows = false →
      ({} : TeardownFaults).closeThrows = false →
      stopEq {} [(2, { streamId := "h", gainValue := 1, eqFilters := [] })] 2 =
        (delKey [(2, { streamId := "h", gainValue := 1, eqFilters := [] })] 2, Resp.okResp,
         some { streamId := "h", gainValue := 1, eqFilters := [],
                sourceDisconnected := true, gainDisconnected := true,
                tracksStopped := true, contextClosed := true })) ∧
    ((({} : TeardownFaults).disconnectThrows = true ∨
      ({} : TeardownFaults).stopTracksThrows = true ∨
      ({} : TeardownFaults).closeThrows = true) →
      (stopEq {} [(2, { streamId := "h", gainValue := 1, eqFilters := [] })] 2).2.1 =
        Resp.errResp "STOP_EQ step threw" ∧
      hasKey (stopEq {} [(2, { streamId := "h", gainValue := 1, eqFilters := [] })] 2).1 2 =
        true)) :=
  stopEq_best_effort {} [(2, { streamId := "h", gainValue := 1, eqFilters := [] })] 2
    { streamId := "h", gainValue := 1, eqFilters := [] } rfl

/-! ## Claim C3 -/

/-- Lookup after the rehydration loop: every visited tab id carries its
rebuilt entry, ids not visited keep their prior binding. -/
theorem foldl_setKey_lookup {α : Type} (e : Nat → α) (ts : List Nat)
    (m0 : List (Nat × α)) (id : Nat) :
    lookupKey (ts.foldl (fun m t => setKey m t (e t)) m0) id =
      if id ∈ ts then some (e id) else lookupKey m0 id := by
  induction ts generalizing m0 with
  | nil => simp
  | cons t ts ih =>
      simp only [List.foldl_cons, ih]
      by_cases hmem : id ∈ ts
      · simp [hmem]
      · by_cases hit : t = id
        · subst hit
          simp [hmem, lookupKey_setKey_self]
        · have h2 : ¬id = t := fun hh => hit hh.symm
          simp [hmem, h2, lookupKey_setKey_ne _ _ _ _ hit]

/-- The `GET_STREAM_IDS` response holds exactly the stream id of each
graph. -/
theorem lookupKey_getStreamIds (graphs : GraphMap) (id : Nat) :
    lookupKey (getStreamIds graphs) id = (lookupKey graphs id).map Graph.streamId := by
  induction graphs with
  | nil => simp [getStreamIds, lookupKey]
  | cons p rest ih =>
      obtain ⟨k, g⟩ := p
      simp only [getStreamIds] at ih
      by_cases h : k = id <;> simp [getStreamIds, lookupKey, h, ih]

/-- **C3.** Rehydrating a freshly restarted control plane (empty
registry) from the audio host rebuilds the registry to contain exactly
the host's graph ids, each `active` and carrying the stream id the
host reports (stream ids assumed non-empty, as produced by
`tabCapture`). -/
theorem rehydrate_rebuilds_registry (graphs : GraphMap) (st : BgState) (id : Nat)
    (hempty : st.eqSessions = [])
    (hhandles : ∀ p ∈ graphs, p.2.streamId ≠ "") :
    lookupKey (rehydrateEqSessions graphs st).eqSessions id =
      (lookupKey graphs id).map
        (fun g => { streamId := some g.streamId, status := SessionStatus.active }) := by
  simp only [rehydrateEqSessions, hempty]
  rw [foldl_setKey_lookup
    (fun t => Session.mk (jsOrNull (lookupKey (getStreamIds graphs) t)) .active)]
  by_cases hmem : id ∈ getActiveTabs graphs
  · have hlook : lookupKey graphs id ≠ none :=
      (mem_keys_iff_lookupKey graphs id).1 hmem
    obtain ⟨g, hgm⟩ : ∃ g, lookupKey graphs id = some g := by
      cases hx : lookupKey graphs id with
      | none => exact absurd hx hlook
      | some g => exact ⟨g, rfl⟩
    have hne : g.streamId ≠ "" := hhandles (id, g) (lookupKey_mem _ _ _ hgm)
    simp [hmem, hgm, lookupKey_getStreamIds, jsOrNull, hne]
  · have hlook : lookupKey graphs id = none := by
      by_contra hc
      exact hmem ((mem_keys_iff_lookupKey graphs id).2 hc)
    simp [hmem, hlook, lookupKey]

/-- Witness for C3: one pre-existing graph for id `3`; rehydration
yields exactly `{3 : active}` with the reported handle. -/
theorem rehydrate_rebuilds_registry_witness :
    lookupKey (rehydrateEqSessions [(3, { streamId := "h3", gainValue := 1, eqFilters := [] })]
        { eqSessions := [], startingTabs := [] }).eqSessions 3 =
      (lookupKey [(3, ({ streamId := "h3", gainValue := 1, eqFilters := [] } : Graph))] 3).map
        (fun g => { streamId := some g.streamId, status := SessionStatus.active }) :=
  rehydrate_rebuilds_registry [(3, { streamId := "h3", gainValue := 1, eqFilters := [] })]
    { eqSessions := [], startingTabs := [] } 3 rfl (by simp)

/-! ## Claim C6 -/

/-- **C6.** `UPDATE_EQ_NODES` is a sparse merge: on an existing graph,
band `j`'s gain/frequency/Q is overwritten exactly when the respective
partial map supplies index `j`, and retains its current value when the
map omits `j` (the filter type is never touched). -/
theorem updateEqNodes_sparse_merge (msg : UpdateMsg) (graphs : GraphMap)
    (tabId : Nat) (g : Graph) (j : Nat)
    (hg : lookupKey graphs tabId = some g)
    (hlen : g.eqFilters.length = 13) (hj : j < 13) :
    (updateEqNodes msg graphs tabId).2 = Resp.okResp ∧
    ∃ b b' : Band, g.eqFilters[j]? = some b ∧
      (lookupKey (updateEqNodes msg graphs tabId).1 tabId).bind
          (fun g' => g'.eqFilters[j]?) = some b' ∧
      (mapEntry msg.nodeGainValues j = none → b'.gain = b.gain) ∧
      (∀ v, mapEntry msg.nodeGainValues j = some v → b'.gain = v) ∧
      (mapEntry msg.nodeFrequencyValues j = none → b'.frequency = b.frequency) ∧
      (∀ v, mapEntry msg.nodeFrequencyValues j = some v → b'.frequency = v) ∧
      (mapEntry msg.nodeQValues j = none → b'.q = b.q) ∧
      (∀ v, mapEntry msg.nodeQValues j = some v → b'.q = v) ∧
      b'.ftype = b.ftype := by
  have hjlen : j < g.eqFilters.length := by omega
  have hfl : FREQUENCIES.length = 13 := rfl
  constructor
  · simp [updateEqNodes, hg]
  · obtain ⟨b, hb⟩ : ∃ b, g.eqFilters[j]? = some b :=
      ⟨g.eqFilters.get ⟨j, hjlen⟩, List.getElem?_eq_getElem hjlen⟩
    refine ⟨b, applyBandUpdate msg j b, hb, ?_, ?_, ?_, ?_, ?_, ?_, ?_, ?_⟩
    · simp only [updateEqNodes, hg, lookupKey_setKey_self, Option.some_bind]
      rw [updateFiltersFrom_getElem, hb]
      simp [hfl, hj]
    all_goals
      cases hf : mapEntry msg.nodeFrequencyValues j <;>
        cases hq : mapEntry msg.nodeQValues j <;>
          cases hgn : mapEntry msg.nodeGainValues j <;>
            simp_all [applyBandUpdate]

/-- Witness for C6: a gain-only update of index `5` against a fresh
graph for tab `1`, observed at band `7`. -/
theorem updateEqNodes_sparse_merge_witness :
    (updateEqNodes { nodeGainValues := some [(5, 4)] }
        [(1, { streamId := "s", gainValue := 1, eqFilters := createEqFilters })] 1).2 =
      Resp.okResp ∧
    ∃ b b' : Band,
      ({ streamId := "s", gainValue := 1, eqFilters := createEqFilters } : Graph).eqFilters[7]? =
        some b ∧
      (lookupKey (updateEqNodes { nodeGainValues := some [(5, 4)] }
          [(1, { streamId := "s", gainValue := 1, eqFilters := createEqFilters })] 1).1 1).bind
          (fun g' => g'.eqFilters[7]?) = some b' ∧
      (mapEntry ({ nodeGainValues := some [(5, 4)] } : UpdateMsg).nodeGainValues 7 = none →
        b'.gain = b.gain) ∧
      (∀ v, mapEntry ({ nodeGainValues := some [(5, 4)] } : UpdateMsg).nodeGainValues 7 = some v →
        b'.gain = v) ∧
      (mapEntry ({ nodeGainValues := some [(5, 4)] } : UpdateMsg).nodeFrequencyValues 7 = none →
        b'.frequency = b.frequency) ∧
      (∀ v, mapEntry ({ nodeGainValues := some [(5, 4)] } : UpdateMsg).nodeFrequencyValues 7 =
        some v → b'.frequency = v) ∧
      (mapEntry ({ nodeGainValues := some [(5, 4)] } : UpdateMsg).nodeQValues 7 = none →
        b'.q = b.q) ∧
      (∀ v, mapEntry ({ nodeGainValues := some [(5, 4)] } : UpdateMsg).nodeQValues 7 = some v →
        b'.q = v) ∧
      b'.ftype = b.ftype :=
  updateEqNodes_sparse_merge { nodeGainValues := some [(5, 4)] }
    [(1, { streamId := "s", gainValue := 1, eqFilters := createEqFilters })] 1
    { streamId := "s", gainValue := 1, eqFilters := createEqFilters } 7 rfl rfl (by norm_num)

/-! ## Claim C7 -/

/-- **C7.** For every center frequency in the engine's range and every
gain `G ∈ [-30, 30]` dB, the response-magnitude computation of
`generateBellCurve`, evaluated at a peaking band's own center frequency
with the band's RBJ coefficients built for `gainDb = G`, lands within
0.1 dB of `G` (in exact real arithmetic it equals `G`). -/
theorem peaking_center_gain (f g Q : ℝ)
    (hf1 : 1 ≤ f) (hf2 : f ≤ 21500) (hg1 : -30 ≤ g) (hg2 : g ≤ 30) (hQ : 0 < Q) :
    |magnitudeDbAt (peakingCoeffs 44100 f g Q) 44100 f - g| ≤ 1/10 := by
  have hpi : 0 < Real.pi := Real.pi_pos
  set w : ℝ := 2 * Real.pi * f / 44100 with hw
  have hw0 : 0 < w := by
    rw [hw]
    positivity
  have hwlt : w < Real.pi := by
    rw [hw]
    rw [div_lt_iff₀ (by norm_num : (0:ℝ) < 44100)]
    nlinarith [Real.pi_pos]
  have hs : 0 < Real.sin w := Real.sin_pos_of_pos_of_lt_pi hw0 hwlt
  set A : ℝ := (10 : ℝ) ^ (g / 40) with hA
  have hApos : 0 < A := Real.rpow_pos_of_pos (by norm_num) _
  set s : ℝ := Real.sin w with hsdef
  set c : ℝ := Real.cos w with hcdef
  set al : ℝ := s / (2 * Q) with hal
  have halpos : 0 < al := by
    rw [hal]
    positivity
  have hpyth : s ^ 2 + c ^ 2 = 1 := Real.sin_sq_add_cos_sq w
  have hmain : magnitudeDbAt (peakingCoeffs 44100 f g Q) 44100 f
      = 20 * Real.logb 10 (max (A * A) (1e-10)) := by
    simp only [magnitudeDbAt, peakingCoeffs]
    rw [← hw, Real.cos_two_mul, Real.sin_two_mul, ← hsdef, ← hcdef, ← hA, ← hal]
    have hnum : (1 + al * A + -2 * c * c + (1 - al * A) * (2 * c ^ 2 - 1)) *
          (1 + al * A + -2 * c * c + (1 - al * A) * (2 * c ^ 2 - 1)) +
        (-2 * c * s + (1 - al * A) * (2 * s * c)) *
          (-2 * c * s + (1 - al * A) * (2 * s * c)) =
        (2 * al * A * s) * (2 * al * A * s) := by
      linear_combination (-(4 * al ^ 2 * A ^ 2 * (1 - c ^ 2))) * hpyth
    have hden : (1 + al / A + -2 * c * c + (1 - al / A) * (2 * c ^ 2 - 1)) *
          (1 + al / A + -2 * c * c + (1 - al / A) * (2 * c ^ 2 - 1)) +
        (-2 * c * s + (1 - al / A) * (2 * s * c)) *
          (-2 * c * s + (1 - al / A) * (2 * s * c)) =
        (2 * (al / A) * s) * (2 * (al / A) * s) := by
      linear_combination (-(4 * (al / A) ^ 2 * (1 - c ^ 2))) * hpyth
    rw [hnum, hden, Real.sqrt_mul_self (by positivity), Real.sqrt_mul_self (by positivity)]
    have hratio : (2 * al * A * s) / (2 * (al / A) * s) = A * A := by
      field_simp
      ring
    rw [hratio]
  rw [hmain]
  have hAA : A * A = (10 : ℝ) ^ (g / 20) := by
    rw [hA, ← Real.rpow_add (by norm_num : (0:ℝ) < 10)]
    congr 1
    ring
  have hfloor : (1e-10 : ℝ) ≤ (10 : ℝ) ^ (g / 20) := by
    have h10 : (1e-10 : ℝ) = (10 : ℝ) ^ (-10 : ℝ) := by
      rw [show ((-10 : ℝ) = -((10:ℕ) : ℝ)) by norm_num,
        Real.rpow_neg (by norm_num : (0:ℝ) ≤ 10), Real.rpow_natCast]
      norm_num
    rw [h10, Real.rpow_le_rpow_left_iff (by norm_num : (1:ℝ) < 10)]
    linarith
  rw [hAA, max_eq_left hfloor,
    Real.logb_rpow (by norm_num : (0:ℝ) < 10) (by norm_num : (10:ℝ) ≠ 1)]
  have hcancel : 20 * (g / 20) - g = 0 := by ring
  rw [hcancel]
  norm_num

/-- Witness for C7 at the 640 Hz band, `G = 5` dB, `Q = 0.3`. -/
theorem peaking_center_gain_witness :
    |magnitudeDbAt (peakingCoeffs 44100 640 5 (3/10)) 44100 640 - 5| ≤ 1/10 :=
  peaking_center_gain 640 5 (3/10) (by norm_num) (by norm_num) (by norm_num)
    (by norm_num) (by norm_num)

/-! ## Claim C9 -/

/-- **C9.** `GET_EQ_STATUS` reports `active:true` exactly when the
registry holds any entry for the tab; in particular a session still in
`starting` status (graph not yet, or never, created) is reported
active. -/
theorem getEqStatus_any_entry (st : BgState) (id : Nat) (sid : Option String) :
    (getEqStatus st id = true ↔ ∃ e, lookupKey st.eqSessions id = some e) ∧
    getEqStatus
      (BgState.mk (setKey st.eqSessions id (Session.mk sid .starting)) st.startingTabs)
      id = true := by
  constructor
  · simp [getEqStatus, hasKey, Option.isSome_iff_exists]
  · simp [getEqStatus, hasKey, lookupKey_setKey_self]

/-! ## Claim C10 -/

/-- **C10.** `SET_VOLUME` against a tab with no graph is a silent
no-op that still answers `{ok:true}` and changes nothing, while
`UPDATE_EQ_NODES` against the same missing graph answers
`{ok:false, error:"No audio graph for tab"}`. -/
theorem setVolume_missing_graph (graphs : GraphMap) (tabId : Nat) (v : ℚ)
    (msg : UpdateMsg) (h : lookupKey graphs tabId = none) :
    setVolume graphs tabId v = (graphs, Resp.okResp) ∧
    updateEqNodes msg graphs tabId = (graphs, Resp.errResp "No audio graph for tab") := by
  constructor <;> simp [setVolume, updateEqNodes, h]

/-- Witness for C10 at the empty graph map, tab `5`. -/
theorem setVolume_missing_graph_witness :
    setVolume [] 5 2 = ([], Resp.okResp) ∧
    updateEqNodes {} [] 5 = ([], Resp.errResp "No audio graph for tab") :=
  setVolume_missing_graph [] 5 2 {} rfl

end EqExt
